import Mathlib

/-!
Verification of the mtpng chunk writer (src/src/writer.rs) and of the CLI
option handling (src/src/bin/mtpng.rs), as a shallow embedding in Lean.

Bytes are modelled as `Nat` values below 256; the output sink (`Vec<u8>` in
the tests, any `Write` in general) is modelled as a byte list that accepts
every write, so `write_all` is list append and `flush` is a no-op that
succeeds.  Fallible operations return `Except String` paired with the
resulting writer state, mirroring `io::Result` plus the mutated `self`.
-/

namespace mtpng

/-- Fueled binary exclusive-or: `xorw k a b` is the xor of the low `k` bits
of `a` and `b`.  Written by structural recursion on the fuel so that the
kernel can evaluate it. -/
def xorw : Nat → Nat → Nat → Nat
  | 0, _, _ => 0
  | k+1, a, b => ((a + b) % 2) + 2 * xorw k (a / 2) (b / 2)

/-- Exclusive-or on 32-bit words (operands below 2^32), the `^` of the Rust
crc crate's u32 arithmetic. -/
def xor32 (a b : Nat) : Nat := xorw 32 a b

/-- The reflected CRC-32 IEEE polynomial 0xEDB88320, the table generator used
by `crc32::Digest::new(crc32::IEEE)` in the crc crate. -/
def crc32_ieee : Nat := 0xEDB88320

/-- One bit-step of the reflected CRC-32 computation: shift right, xoring in
the polynomial when the dropped bit was set. -/
def crc32_step (c : Nat) : Nat :=
  if c % 2 = 1 then xor32 (c / 2) crc32_ieee else c / 2

/-- Digest update over a byte list: for each byte, xor it into the low bits of
the running crc and apply eight bit-steps.  This is the bitwise form of the
table-driven update in the crc crate (`digest.write`). -/
def crc32_update (data : List Nat) (c : Nat) : Nat :=
  data.foldl (fun acc b => Nat.repeat crc32_step 8 (xor32 acc b)) c

/-- CRC-32 (IEEE, standard PNG parameters): initial value 0xFFFFFFFF, final
xor 0xFFFFFFFF, as produced by `digest.sum32()` over the written bytes. -/
def crc32 (data : List Nat) : Nat :=
  xor32 (crc32_update data 0xFFFFFFFF) 0xFFFFFFFF

/-- Logical right shift: `shr a k = a >> k` on nonnegative integers. -/
def shr (a k : Nat) : Nat := a / 2 ^ k

/-- Big-endian byte serialization of a 32-bit value, from `write_be32` in
writer.rs: bytes `val >> 24 & 0xff`, `val >> 16 & 0xff`, `val >> 8 & 0xff`,
`val & 0xff` (masking written as `% 256`). -/
def be32_bytes (val : Nat) : List Nat :=
  [shr val 24 % 256, shr val 16 % 256, shr val 8 % 256, val % 256]

/-- `u32::max_value()`, the chunk data size limit in `write_chunk`. -/
def u32_max : Nat := 4294967295

/-- The PNG chunk stream writer of writer.rs, holding its output sink.  The
sink is a byte list that accepts all writes. -/
structure Writer where
  output : List Nat
deriving DecidableEq, Repr

/-- `write_bytes` / `write_all`: append the bytes to the sink (the sink
accepts every write). -/
def Writer.write_bytes (w : Writer) (data : List Nat) : Writer :=
  Writer.mk (w.output ++ data)

/-- Method `Writer::write_be32`: serialize a u32 big-endian into the sink. -/
def Writer.write_be32 (w : Writer) (val : Nat) : Writer :=
  w.write_bytes (be32_bytes val)

/-- The 8-byte PNG file signature written by `Writer::write_signature`. -/
def png_signature_bytes : List Nat := [137, 80, 78, 71, 13, 10, 26, 10]

/-- `Writer::write_signature`: write the PNG file signature to the output
stream. -/
def Writer.write_signature (w : Writer) : Except String Unit × Writer :=
  (Except.ok (), w.write_bytes png_signature_bytes)

/-- Error message of the tag-length check in `Writer::write_chunk`. -/
def err_chunk_tag : String := "Chunk tags must be 4 bytes"

/-- Error message of the data-length check in `Writer::write_chunk`. -/
def err_chunk_size : String := "Data chunks cannot exceed 4 GiB - 1 byte"

/-- `Writer::write_chunk`: validate the tag length and data length, then
write `len:u32 BE`, tag, data, and the CRC-32 of tag followed by data,
big-endian.  The two validations happen before any byte reaches the sink. -/
def Writer.write_chunk (w : Writer) (tag data : List Nat) :
    Except String Unit × Writer :=
  if tag.length ≠ 4 then
    (Except.error err_chunk_tag, w)
  else if data.length > u32_max then
    (Except.error err_chunk_size, w)
  else
    let checksum := crc32 (tag ++ data)
    let w1 := w.write_be32 data.length
    let w2 := w1.write_bytes tag
    let w3 := w2.write_bytes data
    (Except.ok (), w3.write_be32 checksum)

/-- The image header record (`super::Header`, whose definition is outside the
sample source).  Fields are the ones the spec's data model lists; width and
height are u32, the rest single bytes.  `write_header` in writer.rs reads all
of them except `color_type`. -/
structure Header where
  width : Nat
  height : Nat
  depth : Nat
  color_type : Nat
  compression_method : Nat
  filter_method : Nat
  interlace_method : Nat
deriving DecidableEq, Repr

/-- The four tag bytes of "IHDR". -/
def ihdr_tag : List Nat := [73, 72, 68, 82]

/-- The four tag bytes of "IDAT". -/
def idat_tag : List Nat := [73, 68, 65, 84]

/-- The four tag bytes of "IEND". -/
def iend_tag : List Nat := [73, 69, 78, 68]

/-- The IHDR chunk data built by `Writer::write_header` (writer.rs lines
118-128): width BE, height BE, then the single bytes depth,
compression_method, filter_method, interlace_method — and no color type
byte. -/
def ihdr_data (h : Header) : List Nat :=
  be32_bytes h.width ++ be32_bytes h.height ++
    [h.depth, h.compression_method, h.filter_method, h.interlace_method]

/-- `Writer::write_header`: emit the IHDR chunk with the data above. -/
def Writer.write_header (w : Writer) (h : Header) :
    Except String Unit × Writer :=
  w.write_chunk ihdr_tag (ihdr_data h)

/-- `Writer::write_end`: emit a zero-length IEND chunk. -/
def Writer.write_end (w : Writer) : Except String Unit × Writer :=
  w.write_chunk iend_tag []

/-- `Writer::flush`: forward to the sink's flush, which on the byte-list sink
does nothing and succeeds. -/
def Writer.flush (w : Writer) : Except String Unit × Writer :=
  (Except.ok (), w)

/-- `Writer::close`: flush, then give back the output sink. -/
def Writer.close (w : Writer) : Except String (List Nat) :=
  match w.flush with
  | (Except.ok _, w2) => Except.ok w2.output
  | (Except.error e, _) => Except.error e

/-- The 12-byte IDAT payload of the `crc_works` test in writer.rs (a 1x1
truecolor black pixel's compressed data). -/
def one_pixel : List Nat :=
  [0x08, 0x99, 0x63, 0x60, 0x60, 0x60, 0x00, 0x00, 0x00, 0x04, 0x00, 0x01]

/-!
CLI option handling, from `write_png` in src/src/bin/mtpng.rs and `main`.
The library enums (`Filter`, `Strategy`, `CompressionLevel`, `Mode`) and the
`Options` record live in the library crate, which is not among the sample
sources; their shapes are taken from the spec's data model and from how the
CLI names their variants.
-/

/-- The five PNG row filters (library enum `mtpng::Filter`). -/
inductive Filter where
  | None
  | Sub
  | Up
  | Average
  | Paeth
deriving DecidableEq, Repr

/-- Deflate strategies (library enum `mtpng::Strategy`). -/
inductive Strategy where
  | Default
  | Filtered
  | HuffmanOnly
  | RLE
  | Fixed
deriving DecidableEq, Repr

/-- Compression levels (library enum `mtpng::CompressionLevel`). -/
inductive CompressionLevel where
  | Fast
  | Default
  | High
deriving DecidableEq, Repr

/-- Mode wrapper (library enum `mtpng::Mode`): adaptive selection or one
fixed value. -/
inductive Mode (α : Type) where
  | Adaptive
  | Fixed (x : α)
deriving DecidableEq, Repr

/-- Modelled from the spec: the `Options` configuration record of the library
encoder (not among the sample sources), restricted to the three fields the
claims about CLI option values touch. -/
structure Options where
  filter_mode : Mode Filter
  compression_level : CompressionLevel
  strategy_mode : Mode Strategy
deriving DecidableEq, Repr

/-- Modelled from the spec: `Options::set_filter_mode` (library, not in the
sample sources).  Options are validated on set; a well-typed mode value is
valid, so the setter stores it and succeeds. -/
def set_filter_mode (o : Options) (m : Mode Filter) : Except String Options :=
  Except.ok { o with filter_mode := m }

/-- Modelled from the spec: `Options::set_compression_level` (library, not in
the sample sources); a well-typed level is valid, so the setter stores it and
succeeds. -/
def set_compression_level (o : Options) (l : CompressionLevel) :
    Except String Options :=
  Except.ok { o with compression_level := l }

/-- Modelled from the spec: `Options::set_strategy_mode` (library, not in the
sample sources); a well-typed mode is valid, so the setter stores it and
succeeds. -/
def set_strategy_mode (o : Options) (m : Mode Strategy) :
    Except String Options :=
  Except.ok { o with strategy_mode := m }

/-- The `--filter` match in `write_png` (mtpng.rs lines 96-105): an absent
option changes nothing; the six named values select their modes, in the
source's arm order; anything else is an error.  Rust's match on `&str`
literals is the sequential comparison written here. -/
def apply_filter_arg (arg : Option String) (o : Options) :
    Except String Options :=
  match arg with
  | Option.none => Except.ok o
  | Option.some s =>
    if s = "adaptive" then set_filter_mode o Mode.Adaptive
    else if s = "none" then set_filter_mode o (Mode.Fixed Filter.None)
    else if s = "up" then set_filter_mode o (Mode.Fixed Filter.Up)
    else if s = "sub" then set_filter_mode o (Mode.Fixed Filter.Sub)
    else if s = "average" then set_filter_mode o (Mode.Fixed Filter.Average)
    else if s = "paeth" then set_filter_mode o (Mode.Fixed Filter.Paeth)
    else Except.error ("Unsupported filter type")

/-- The `--level` match in `write_png` (mtpng.rs lines 107-113). -/
def apply_level_arg (arg : Option String) (o : Options) :
    Except String Options :=
  match arg with
  | Option.none => Except.ok o
  | Option.some s =>
    if s = "default" then set_compression_level o CompressionLevel.Default
    else if s = "1" then set_compression_level o CompressionLevel.Fast
    else if s = "9" then set_compression_level o CompressionLevel.High
    else Except.error ("Unsupported compression level (try default, 1, or 9)")

/-- The `--strategy` match in `write_png` (mtpng.rs lines 115-124). -/
def apply_strategy_arg (arg : Option String) (o : Options) :
    Except String Options :=
  match arg with
  | Option.none => Except.ok o
  | Option.some s =>
    if s = "auto" then set_strategy_mode o Mode.Adaptive
    else if s = "default" then set_strategy_mode o (Mode.Fixed Strategy.Default)
    else if s = "filtered" then set_strategy_mode o (Mode.Fixed Strategy.Filtered)
    else if s = "huffman" then set_strategy_mode o (Mode.Fixed Strategy.HuffmanOnly)
    else if s = "rle" then set_strategy_mode o (Mode.Fixed Strategy.RLE)
    else if s = "fixed" then set_strategy_mode o (Mode.Fixed Strategy.Fixed)
    else Except.error ("Invalid compression strategy mode")

/-- The `--filter` values the CLI accepts. -/
def filter_arg_values : List String :=
  ["adaptive", "none", "up", "sub", "average", "paeth"]

/-- The `--level` values the CLI accepts. -/
def level_arg_values : List String := ["default", "1", "9"]

/-- The `--strategy` values the CLI accepts. -/
def strategy_arg_values : List String :=
  ["auto", "default", "filtered", "huffman", "rle", "fixed"]

/-- The final match of `main` (mtpng.rs lines 233-236), given the result of
`doit`: on `Ok` nothing happens, on `Err(e)` the line `Error: e` goes to
stderr.  In both branches `main` returns `()`, so the Rust process exit
status is 0; the result is the pair (exit status, stderr lines). -/
def main_dispatch (r : Except String Unit) : Nat × List String :=
  match r with
  | Except.ok _ => (0, [])
  | Except.error e => (0, ["Error: " ++ e])

/-- Length of a big-endian u32 serialization. -/
theorem be32_bytes_length (val : Nat) : (be32_bytes val).length = 4 := rfl

/-- Value of a valid `write_chunk` call: when the tag has 4 bytes and the
data is within the u32 limit, the call succeeds and appends length, tag,
data and CRC to the sink. -/
theorem write_chunk_eq_of_valid (w : Writer) (tag data : List Nat)
    (htag : tag.length = 4) (hdata : data.length ≤ u32_max) :
    w.write_chunk tag data =
      (Except.ok (),
        Writer.mk (w.output ++ be32_bytes data.length ++ tag ++ data ++
          be32_bytes (crc32 (tag ++ data)))) := by
  have h1 : ¬ tag.length ≠ 4 := by omega
  have h2 : ¬ data.length > u32_max := by omega
  simp [Writer.write_chunk, h1, h2, Writer.write_be32, Writer.write_bytes]

/-- Claim C2: for every 4-byte tag and data within the u32 limit, with the
sink accepting all writes, `write_chunk` succeeds and appends exactly the
length as u32 BE, the tag bytes, the data bytes, and the CRC-32 (IEEE) of
tag followed by data as u32 BE — 12 + data.length bytes in total. -/
theorem write_chunk_frames (w : Writer) (tag data : List Nat)
    (htag : tag.length = 4) (hdata : data.length ≤ 2 ^ 32 - 1) :
    (w.write_chunk tag data).1 = Except.ok () ∧
    (w.write_chunk tag data).2.output =
      w.output ++ be32_bytes data.length ++ tag ++ data ++
        be32_bytes (crc32 (tag ++ data)) ∧
    (w.write_chunk tag data).2.output.length =
      w.output.length + (12 + data.length) := by
  have hd : data.length ≤ u32_max := by
    have : (2 : Nat) ^ 32 - 1 = u32_max := by decide
    omega
  rw [write_chunk_eq_of_valid w tag data htag hd]
  refine ⟨rfl, rfl, ?_⟩
  simp [List.length_append, be32_bytes_length, htag]
  omega

/-- Witness for claim C2 at tag "IDAT" and empty data: the hypotheses hold
and the call appends exactly the 12 framing bytes. -/
theorem write_chunk_frames_witness :
    (idat_tag.length = 4 ∧ ([] : List Nat).length ≤ 2 ^ 32 - 1) ∧
    ((Writer.mk []).write_chunk idat_tag []).1 = Except.ok () ∧
    ((Writer.mk []).write_chunk idat_tag []).2.output =
      (Writer.mk []).output ++ be32_bytes ([] : List Nat).length ++ idat_tag ++
        [] ++ be32_bytes (crc32 (idat_tag ++ [])) ∧
    ((Writer.mk []).write_chunk idat_tag []).2.output.length =
      (Writer.mk []).output.length + (12 + ([] : List Nat).length) :=
  ⟨⟨rfl, by decide⟩,
    write_chunk_frames (Writer.mk []) idat_tag [] rfl (by decide)⟩

/-- Claim C3: `write_chunk` returns the invalid-input error exactly when the
tag is not 4 bytes or the data exceeds 2^32 - 1 bytes, and succeeds exactly
when both bounds hold (the byte-list sink accepts every write). -/
theorem write_chunk_ok_iff (w : Writer) (tag data : List Nat) :
    ((∃ e, (w.write_chunk tag data).1 = Except.error e) ↔
      (tag.length ≠ 4 ∨ data.length > 2 ^ 32 - 1)) ∧
    ((w.write_chunk tag data).1 = Except.ok () ↔
      (tag.length = 4 ∧ data.length ≤ 2 ^ 32 - 1)) := by
  have hu : (2 : Nat) ^ 32 - 1 = u32_max := by decide
  rw [hu]
  by_cases h1 : tag.length ≠ 4
  · simp [Writer.write_chunk, h1]
  · by_cases h2 : data.length > u32_max
    · simp [Writer.write_chunk, h1, h2]
    · simp [Writer.write_chunk, h1, h2]
      omega

set_option maxRecDepth 100000 in
/-- Claim C4: `write_chunk` on tag "IDAT" and the 12-byte reference payload
produces 24 output bytes whose final 4 bytes — the CRC field — are
A3 0A 15 E3, matching the `crc_works` test in writer.rs. -/
theorem write_chunk_crc_reference :
    ((Writer.mk []).write_chunk idat_tag one_pixel).2.output.length = 24 ∧
    List.drop 20 ((Writer.mk []).write_chunk idat_tag one_pixel).2.output =
      [0xA3, 0x0A, 0x15, 0xE3] := by decide

/-- Claim C5: `write_signature` succeeds and appends exactly the 8 signature
bytes 89 50 4E 47 0D 0A 1A 0A to the output, and nothing else. -/
theorem write_signature_exact (w : Writer) :
    w.write_signature =
      (Except.ok (),
        Writer.mk (w.output ++ [137, 80, 78, 71, 13, 10, 26, 10])) := rfl

set_option maxRecDepth 100000 in
/-- Helper: the length 0 serializes big-endian as four zero bytes. -/
theorem be32_bytes_zero : be32_bytes 0 = [0, 0, 0, 0] := by decide

/-- Claim C6: `write_end` emits a zero-length IEND chunk — exactly 12 bytes:
the length 0 as u32 BE, the tag "IEND", and the CRC-32 of "IEND" as u32
BE. -/
theorem write_end_emits_iend (w : Writer) :
    (w.write_end).1 = Except.ok () ∧
    (w.write_end).2.output =
      w.output ++ [0, 0, 0, 0] ++ iend_tag ++ be32_bytes (crc32 iend_tag) ∧
    (w.write_end).2.output.length = w.output.length + 12 := by
  have h := write_chunk_eq_of_valid w iend_tag [] rfl (by decide)
  rw [Writer.write_end, h]
  refine ⟨rfl, ?_, ?_⟩ <;>
    simp [be32_bytes_zero, List.length_append, be32_bytes_length, iend_tag]

/-- Claim C7: `close` flushes the sink (a no-op that succeeds on the
byte-list sink) and returns it unchanged, holding exactly the bytes the
prior writer operations accumulated. -/
theorem close_returns_sink (w : Writer) :
    Writer.close w = Except.ok w.output := rfl

set_option maxRecDepth 100000 in
/-- Claim C1 (code bug): `write_header` builds the IHDR data as width BE,
height BE, depth, compression method, filter method, interlace method — 12
bytes, omitting the color type byte a valid PNG IHDR requires between depth
and compression method.  Evaluated at a 1x1 greyscale-depth-8 header with
color type 2 (Truecolor): the color type byte never appears in the emitted
chunk. -/
theorem write_header_omits_color_type :
    ihdr_data (Header.mk 1 1 8 2 0 0 0) =
      [0, 0, 0, 1, 0, 0, 0, 1, 8, 0, 0, 0] ∧
    (ihdr_data (Header.mk 1 1 8 2 0 0 0)).length = 12 ∧
    ((Writer.mk []).write_header (Header.mk 1 1 8 2 0 0 0)).2.output =
      [0, 0, 0, 12] ++ ihdr_tag ++ [0, 0, 0, 1, 0, 0, 0, 1, 8, 0, 0, 0] ++
        [196, 160, 235, 71] := by decide

/-- Claim C10: when `write_chunk` rejects its input (bad tag length or
oversized data), the writer state is unchanged: no byte reaches the sink. -/
theorem write_chunk_error_preserves_sink (w : Writer) (tag data : List Nat)
    (e : String) (h : (w.write_chunk tag data).1 = Except.error e) :
    (w.write_chunk tag data).2 = w := by
  unfold Writer.write_chunk at h ⊢
  by_cases h1 : tag.length ≠ 4
  · simp [h1]
  · by_cases h2 : data.length > u32_max
    · simp [h1, h2]
    · simp [h1, h2] at h

/-- Witness for claim C10 at a 3-byte tag: the call fails with the
invalid-input error and the sink still holds exactly its prior byte. -/
theorem write_chunk_error_preserves_sink_witness :
    ((Writer.mk [9]).write_chunk [1, 2, 3] [7]).1 =
      Except.error err_chunk_tag ∧
    ((Writer.mk [9]).write_chunk [1, 2, 3] [7]).2 = Writer.mk [9] :=
  ⟨rfl,
    write_chunk_error_preserves_sink (Writer.mk [9]) [1, 2, 3] [7]
      err_chunk_tag rfl⟩

/-- Counterexample to claim C8: a failed run — `doit` returning the
invalid-chunk-size error — does print the error line to stderr, but the
process exit status is 0, not non-zero: `main` swallows the error. -/
theorem main_error_exit_status_zero :
    (main_dispatch (Except.error ("Invalid chunk size"))).2 =
      ["Error: Invalid chunk size"] ∧
    ¬ (main_dispatch (Except.error ("Invalid chunk size"))).1 ≠ 0 := by
  refine ⟨rfl, ?_⟩
  intro h
  exact h rfl

/-- Claim C8 as amended: on failure the CLI writes the line `Error: <e>` to
stderr but still exits with status 0 (the error does not reach the exit
status); on success it exits with status 0 and writes no error line. -/
theorem main_dispatch_exit_behavior :
    main_dispatch (Except.ok ()) = (0, []) ∧
    ∀ e, main_dispatch (Except.error e) = (0, ["Error: " ++ e]) :=
  ⟨rfl, fun _ => rfl⟩

/-- Helper: the `--filter` match succeeds exactly on the six documented
values. -/
theorem apply_filter_arg_ok_iff (s : String) (o : Options) :
    (∃ o2, apply_filter_arg (Option.some s) o = Except.ok o2) ↔
      s ∈ filter_arg_values := by
  by_cases h1 : s = "adaptive"
  · subst h1; exact iff_of_true ⟨_, rfl⟩ (by decide)
  · by_cases h2 : s = "none"
    · subst h2; exact iff_of_true ⟨_, rfl⟩ (by decide)
    · by_cases h3 : s = "up"
      · subst h3; exact iff_of_true ⟨_, rfl⟩ (by decide)
      · by_cases h4 : s = "sub"
        · subst h4; exact iff_of_true ⟨_, rfl⟩ (by decide)
        · by_cases h5 : s = "average"
          · subst h5; exact iff_of_true ⟨_, rfl⟩ (by decide)
          · by_cases h6 : s = "paeth"
            · subst h6; exact iff_of_true ⟨_, rfl⟩ (by decide)
            · simp only [apply_filter_arg]
              rw [if_neg h1, if_neg h2, if_neg h3, if_neg h4, if_neg h5,
                if_neg h6]
              simp [filter_arg_values, h1, h2, h3, h4, h5, h6]

/-- Helper: the `--level` match succeeds exactly on the three documented
values. -/
theorem apply_level_arg_ok_iff (s : String) (o : Options) :
    (∃ o2, apply_level_arg (Option.some s) o = Except.ok o2) ↔
      s ∈ level_arg_values := by
  by_cases h1 : s = "default"
  · subst h1; exact iff_of_true ⟨_, rfl⟩ (by decide)
  · by_cases h2 : s = "1"
    · subst h2; exact iff_of_true ⟨_, rfl⟩ (by decide)
    · by_cases h3 : s = "9"
      · subst h3; exact iff_of_true ⟨_, rfl⟩ (by decide)
      · simp only [apply_level_arg]
        rw [if_neg h1, if_neg h2, if_neg h3]
        simp [level_arg_values, h1, h2, h3]

/-- Helper: the `--strategy` match succeeds exactly on the six documented
values. -/
theorem apply_strategy_arg_ok_iff (s : String) (o : Options) :
    (∃ o2, apply_strategy_arg (Option.some s) o = Except.ok o2) ↔
      s ∈ strategy_arg_values := by
  by_cases h1 : s = "auto"
  · subst h1; exact iff_of_true ⟨_, rfl⟩ (by decide)
  · by_cases h2 : s = "default"
    · subst h2; exact iff_of_true ⟨_, rfl⟩ (by decide)
    · by_cases h3 : s = "filtered"
      · subst h3; exact iff_of_true ⟨_, rfl⟩ (by decide)
      · by_cases h4 : s = "huffman"
        · subst h4; exact iff_of_true ⟨_, rfl⟩ (by decide)
        · by_cases h5 : s = "rle"
          · subst h5; exact iff_of_true ⟨_, rfl⟩ (by decide)
          · by_cases h6 : s = "fixed"
            · subst h6; exact iff_of_true ⟨_, rfl⟩ (by decide)
            · simp only [apply_strategy_arg]
              rw [if_neg h1, if_neg h2, if_neg h3, if_neg h4, if_neg h5,
                if_neg h6]
              simp [strategy_arg_values, h1, h2, h3, h4, h5, h6]

/-- Claim C9: the CLI accepts exactly the values adaptive, none, up, sub,
average, paeth for `--filter` (adaptive selecting Adaptive mode, the others
the corresponding Fixed filter), exactly default, 1, 9 for `--level`
(selecting Default, Fast, High), and exactly auto, default, filtered,
huffman, rle, fixed for `--strategy` (auto selecting Adaptive mode); any
other supplied value makes the encode step return an error, and an absent
option leaves the options record unchanged. -/
theorem cli_option_value_mapping :
    (∀ o, apply_filter_arg Option.none o = Except.ok o) ∧
    (∀ o, apply_level_arg Option.none o = Except.ok o) ∧
    (∀ o, apply_strategy_arg Option.none o = Except.ok o) ∧
    (∀ o, apply_filter_arg (Option.some "adaptive") o =
      Except.ok { o with filter_mode := Mode.Adaptive }) ∧
    (∀ o, apply_filter_arg (Option.some "none") o =
      Except.ok { o with filter_mode := Mode.Fixed Filter.None }) ∧
    (∀ o, apply_filter_arg (Option.some "up") o =
      Except.ok { o with filter_mode := Mode.Fixed Filter.Up }) ∧
    (∀ o, apply_filter_arg (Option.some "sub") o =
      Except.ok { o with filter_mode := Mode.Fixed Filter.Sub }) ∧
    (∀ o, apply_filter_arg (Option.some "average") o =
      Except.ok { o with filter_mode := Mode.Fixed Filter.Average }) ∧
    (∀ o, apply_filter_arg (Option.some "paeth") o =
      Except.ok { o with filter_mode := Mode.Fixed Filter.Paeth }) ∧
    (∀ o, apply_level_arg (Option.some "default") o =
      Except.ok { o with compression_level := CompressionLevel.Default }) ∧
    (∀ o, apply_level_arg (Option.some "1") o =
      Except.ok { o with compression_level := CompressionLevel.Fast }) ∧
    (∀ o, apply_level_arg (Option.some "9") o =
      Except.ok { o with compression_level := CompressionLevel.High }) ∧
    (∀ o, apply_strategy_arg (Option.some "auto") o =
      Except.ok { o with strategy_mode := Mode.Adaptive }) ∧
    (∀ o, apply_strategy_arg (Option.some "default") o =
      Except.ok { o with strategy_mode := Mode.Fixed Strategy.Default }) ∧
    (∀ o, apply_strategy_arg (Option.some "filtered") o =
      Except.ok { o with strategy_mode := Mode.Fixed Strategy.Filtered }) ∧
    (∀ o, apply_strategy_arg (Option.some "huffman") o =
      Except.ok { o with strategy_mode := Mode.Fixed Strategy.HuffmanOnly }) ∧
    (∀ o, apply_strategy_arg (Option.some "rle") o =
      Except.ok { o with strategy_mode := Mode.Fixed Strategy.RLE }) ∧
    (∀ o, apply_strategy_arg (Option.some "fixed") o =
      Except.ok { o with strategy_mode := Mode.Fixed Strategy.Fixed }) ∧
    (∀ s o, (∃ o2, apply_filter_arg (Option.some s) o = Except.ok o2) ↔
      s ∈ filter_arg_values) ∧
    (∀ s o, (∃ o2, apply_level_arg (Option.some s) o = Except.ok o2) ↔
      s ∈ level_arg_values) ∧
    (∀ s o, (∃ o2, apply_strategy_arg (Option.some s) o = Except.ok o2) ↔
      s ∈ strategy_arg_values) :=
  ⟨fun _ => rfl, fun _ => rfl, fun _ => rfl,
    fun _ => rfl, fun _ => rfl, fun _ => rfl, fun _ => rfl, fun _ => rfl,
    fun _ => rfl,
    fun _ => rfl, fun _ => rfl, fun _ => rfl,
    fun _ => rfl, fun _ => rfl, fun _ => rfl, fun _ => rfl, fun _ => rfl,
    fun _ => rfl,
    apply_filter_arg_ok_iff, apply_level_arg_ok_iff,
    apply_strategy_arg_ok_iff⟩

end mtpng
